/-
Verification of the uriscan-inference-web-ui result-normalization and
API-client layer, shallowly embedded in Lean 4.

Python dictionaries holding a parameter result are embedded as a structure
whose fields are `Option`-valued: `none` means the key is absent, and for
keys whose stored value may itself be Python `None`, the field type is
`Option (Option _)` with the inner `none` standing for the stored null.
`dict[key]` access (which raises `KeyError` on a missing key) is embedded
by computing in `Except String`; `dict.get(key, default)` is `Option.getD`.
Floats are idealized as rationals; fixed-point formatting
is embedded with round-half-to-even, matching how CPython formats exact
binary values.
-/

import Mathlib

namespace Uriscan

/-- Python truthiness of an `Optional[bool]` value: only `True` is truthy. -/
def pyTruthy : Option Bool → Bool
  | some b => b
  | none => false

/-- Equality of embedded fallible computations is decidable, so concrete
runs can be checked by evaluation. -/
instance {ε α : Type} [DecidableEq ε] [DecidableEq α] :
    DecidableEq (Except ε α) := fun x y =>
  match x, y with
  | .ok a, .ok b =>
    if h : a = b then isTrue (by rw [h]) else isFalse (by simp [h])
  | .error a, .error b =>
    if h : a = b then isTrue (by rw [h]) else isFalse (by simp [h])
  | .ok _, .error _ => isFalse (by simp)
  | .error _, .ok _ => isFalse (by simp)

/-- Python `str.upper()` restricted to the character-by-character map the
code relies on (model-type names are ASCII). -/
def pyUpper (s : String) : String := String.mk (s.data.map Char.toUpper)

/-- Python `x or "N/A"` applied to an optional string: `or` replaces both
`None` and the empty string by the fallback. -/
def pyOrNA : Option String → String
  | none => "N/A"
  | some s => if s = "" then "N/A" else s

/-- Round the fraction `num / den` (`den > 0`) to the nearest integer, ties
to even (CPython float formatting rounds the underlying binary value
half-to-even). Pure integer arithmetic so that the kernel can evaluate it. -/
def roundHalfEven (num den : ℤ) : ℤ :=
  let f : ℤ := num.fdiv den
  let r : ℤ := num - f * den
  if 2 * r < den then f
  else if den < 2 * r then f + 1
  else if f % 2 = 0 then f else f + 1

/-- Left-pad a numeral string with zeros to width `d`. -/
def natPad (s : String) (d : ℕ) : String :=
  if d ≤ s.length then s else String.mk (List.replicate (d - s.length) '0') ++ s

/-- Embedding of Python `f"{q:.df}"` fixed-point formatting on rationals:
round `q * 10^d` half-to-even, then print with `d` digits after the dot. -/
def formatFixed (d : ℕ) (q : ℚ) : String :=
  let scaled : ℤ := roundHalfEven (q.num * Int.ofNat (10 ^ d)) (Int.ofNat q.den)
  if d = 0 then toString scaled
  else
    let sign := if scaled < 0 then "-" else ""
    let n := scaled.natAbs
    sign ++ toString (n / 10 ^ d) ++ "." ++ natPad (toString (n % 10 ^ d)) d

/-- One parameter-result JSON object, as a partial record of the keys the
code reads. `none` = key absent; inner `none` (where present) = JSON null. -/
structure Param where
  name : Option String := none
  parameter_name : Option String := none
  status : Option String := none
  model_type : Option String := none
  model_status : Option String := none
  prediction : Option String := none
  probability : Option ℚ := none
  confidence : Option String := none
  ground_truth_raw : Option (Option String) := none
  ground_truth_binary : Option (Option String) := none
  agreement : Option (Option Bool) := none
  threshold : Option ℚ := none
  error : Option String := none
  agreement_pct : Option ℚ := none
  deriving DecidableEq, Repr

/-- `param.get('agreement')`: absent key and stored null both give `None`. -/
def agreementGet (p : Param) : Option Bool := p.agreement.join

/- ------------------------------------------------------------------
frontend/utils/formatting.py
------------------------------------------------------------------ -/

/-- `get_agreement_badge` (formatting.py): `"✅" if agreement else "❌"`,
applied by callers to an `Optional[bool]`, so truthiness decides. -/
def get_agreement_badge (agreement : Option Bool) : String :=
  if pyTruthy agreement then "✅" else "❌"

/-- `get_agreement_indicator` (formatting.py): tiered emoji by percentage. -/
def get_agreement_indicator (agreement_pct : ℚ) : String :=
  if agreement_pct ≥ 80 then "🟢"
  else if agreement_pct ≥ 50 then "🟡"
  else "🔴"

/- ------------------------------------------------------------------
app.py : prepare_results_dataframe
------------------------------------------------------------------ -/

/-- One row of the DataFrame built by `prepare_results_dataframe` (app.py).
Cells hold the displayed strings; the CSV download is built from the same
DataFrame. -/
structure AppRow where
  Parameter : String
  Status : String
  ModelType : String
  Prediction : String
  Probability : String
  Confidence : String
  GroundTruth : String
  GTBinary : String
  Agreement : String
  Error : String
  deriving DecidableEq, Repr

/-- Row shaping for one parameter, following `prepare_results_dataframe`
(app.py lines 111-147). Bracket lookups run in `Except`: a missing key
aborts the conversion with a `KeyError`, exactly as the raised exception
would, and the lookups happen in Python evaluation order. -/
def prepRow (p : Param) : Except String AppRow :=
  match p.status with
  | none => .error "KeyError: status"
  | some status =>
    if status = "error" then
      match p.name with
      | none => .error "KeyError: name"
      | some name =>
        .ok { Parameter := name, Status := "Error", ModelType := "-",
              Prediction := "-", Probability := "-", Confidence := "-",
              GroundTruth := "-", GTBinary := "-", Agreement := "🔴",
              Error := p.error.getD "Unknown error" }
    else
      match p.agreement with
      | none => .error "KeyError: agreement"
      | some agr =>
      match p.name with
      | none => .error "KeyError: name"
      | some name =>
      match p.model_type with
      | none => .error "KeyError: model_type"
      | some modelType =>
      match p.prediction with
      | none => .error "KeyError: prediction"
      | some prediction =>
      match p.probability with
      | none => .error "KeyError: probability"
      | some probability =>
      match p.confidence with
      | none => .error "KeyError: confidence"
      | some confidence =>
      match p.ground_truth_raw with
      | none => .error "KeyError: ground_truth_raw"
      | some gtRaw =>
      match p.ground_truth_binary with
      | none => .error "KeyError: ground_truth_binary"
      | some gtBin =>
        .ok { Parameter := name,
              Status := p.model_status.getD "unknown",
              ModelType := pyUpper modelType,
              Prediction := prediction,
              Probability := formatFixed 3 probability,
              Confidence := confidence,
              GroundTruth := pyOrNA gtRaw,
              GTBinary := pyOrNA gtBin,
              Agreement := if agr = some true then "✅"
                           else if agr = some false then "❌" else "⚠️",
              Error := "-" }

/-- `prepare_results_dataframe` (app.py): the for-loop over
`results["parameters"]`, appending one row per parameter; a raised
`KeyError` aborts the loop and no DataFrame is produced. -/
def prepare_results_dataframe : List Param → Except String (List AppRow)
  | [] => .ok []
  | p :: ps =>
    match prepRow p with
    | .error e => .error e
    | .ok row =>
      match prepare_results_dataframe ps with
      | .error e => .error e
      | .ok rows => .ok (row :: rows)

/-- The rows app.py passes to `st.dataframe` (the on-screen table). -/
def app_display_rows (params : List Param) : Except String (List AppRow) :=
  prepare_results_dataframe params

/-- The rows app.py serializes with `df.to_csv` for the download button:
the very same DataFrame that is displayed. -/
def app_csv_rows (params : List Param) : Except String (List AppRow) :=
  prepare_results_dataframe params

/- ------------------------------------------------------------------
frontend/pages/inference.py : show_inference_page parameter table
------------------------------------------------------------------ -/

/-- One row of the parameter table on the inference page. The ground-truth
cell keeps the raw optional value, since `dict.get` can surface a stored
null. -/
structure InfRow where
  Parameter : String
  Model : String
  Prediction : String
  GroundTruth : Option String
  Agreement : String
  Probability : String
  deriving DecidableEq, Repr

/-- Row shaping in `show_inference_page` (inference.py lines 184-204): the
success branch formats the fields with `dict.get` defaults, any other
status yields placeholder dashes. -/
def infRow (p : Param) : InfRow :=
  if p.status = some "success" then
    { Parameter := p.name.getD "N/A",
      Model := pyUpper (p.model_type.getD "N/A"),
      Prediction := p.prediction.getD "N/A",
      GroundTruth := p.ground_truth_raw.getD (some "N/A"),
      Agreement := get_agreement_badge (p.agreement.getD (some false)),
      Probability := formatFixed 3 (p.probability.getD 0) }
  else
    { Parameter := p.name.getD "N/A", Model := "-", Prediction := "-",
      GroundTruth := some "-", Agreement := "-", Probability := "-" }

/-- The for-loop in `show_inference_page` that appends one row per
parameter to `params_data`. -/
def show_inference_rows : List Param → List InfRow
  | [] => []
  | p :: ps => infRow p :: show_inference_rows ps

/- ------------------------------------------------------------------
frontend/components/detail_view.py : render_parameter_breakdown
------------------------------------------------------------------ -/

/-- One row of the table built by `render_parameter_breakdown`
(detail_view.py lines 174-189). Numeric cells are raw values; the styler
formats them for display. -/
structure DetailRow where
  Agreement : String
  Parameter : String
  ModelType : String
  Prediction : String
  GroundTruth : Option String
  GTBinary : Option String
  AgreementPct : ℚ
  Probability : ℚ
  Threshold : ℚ
  deriving DecidableEq, Repr

/-- Row shaping in `render_parameter_breakdown`: every field is read with
`dict.get`; the badge comes from `get_agreement_badge` applied to
`param.get("agreement")`, with no inspection of `status`. -/
def detailRow (p : Param) : DetailRow :=
  { Agreement := get_agreement_badge (agreementGet p),
    Parameter := p.parameter_name.getD "N/A",
    ModelType := p.model_type.getD "N/A",
    Prediction := p.prediction.getD "N/A",
    GroundTruth := p.ground_truth_raw.getD (some "N/A"),
    GTBinary := p.ground_truth_binary.getD (some "N/A"),
    AgreementPct := p.agreement_pct.getD 0,
    Probability := p.probability.getD 0,
    Threshold := p.threshold.getD 0 }

/-- The styler format map of `render_parameter_breakdown`: on-screen text
of the agreement-percentage cell. -/
def detailDisplayAgreementPct (row : DetailRow) : String :=
  formatFixed 1 row.AgreementPct ++ "%"

/-- The styler format map of `render_parameter_breakdown`: on-screen text
of the probability cell, four decimal places. -/
def detailDisplayProbability (row : DetailRow) : String :=
  formatFixed 4 row.Probability

/-- The styler format map of `render_parameter_breakdown`: on-screen text
of the threshold cell. -/
def detailDisplayThreshold (row : DetailRow) : String :=
  formatFixed 2 row.Threshold

/-- The "Agreed" summary counter of `render_parameter_breakdown`
(detail_view.py line 222): parameters whose agreement is exactly `True`. -/
def agreedCount (params : List Param) : ℕ :=
  params.countP (fun p => agreementGet p == some true)

/-- The "Disagreed" summary counter (detail_view.py line 223):
`total - agreed`. -/
def disagreedCount (params : List Param) : ℕ :=
  params.length - agreedCount params

/- ------------------------------------------------------------------
frontend/pages/detail.py : show_detail_page CSV export
------------------------------------------------------------------ -/

/-- One row of the CSV export built in `show_detail_page` (detail.py lines
126-144): raw `dict.get` values, with no formatting applied. -/
structure ExportRow where
  SubmissionId : Option String
  Parameter : Option String
  ModelStatus : Option String
  ModelType : Option String
  Prediction : Option String
  GroundTruthRaw : Option String
  GroundTruthBinary : Option String
  Agreement : Option Bool
  Probability : Option ℚ
  Threshold : Option ℚ
  deriving DecidableEq, Repr

/-- The export-row construction of `show_detail_page`. -/
def exportRow (submission_id : Option String) (p : Param) : ExportRow :=
  { SubmissionId := submission_id,
    Parameter := p.parameter_name,
    ModelStatus := p.model_status,
    ModelType := p.model_type,
    Prediction := p.prediction,
    GroundTruthRaw := p.ground_truth_raw.join,
    GroundTruthBinary := p.ground_truth_binary.join,
    Agreement := agreementGet p,
    Probability := p.probability,
    Threshold := p.threshold }

/-- The for-loop in `show_detail_page` that appends one export row per
parameter to `export_data`. -/
def export_rows (submission_id : Option String) : List Param → List ExportRow
  | [] => []
  | p :: ps => exportRow submission_id p :: export_rows submission_id ps

/- ------------------------------------------------------------------
frontend/utils/api_client.py
------------------------------------------------------------------ -/

/-- Outcome of one HTTP request as the client code observes it:
a deserialized 2xx body, a non-2xx status surfaced by `raise_for_status`
(with the stringified exception), or any other transport-level exception
(timeout, connection failure, JSON decoding). -/
inductive HttpOutcome (α : Type) where
  | success (body : α)
  | httpStatusError (code : ℕ) (msg : String)
  | transportError (msg : String)
  deriving DecidableEq, Repr

/-- What an `InferenceAPIClient` call can raise: the typed `ValueError`
used as the not-found signal, a re-raised bare `HTTPError`, or a generic
wrapped `Exception`. -/
inductive ApiFailure where
  | valueError (msg : String)
  | httpError (code : ℕ) (msg : String)
  | wrappedError (msg : String)
  deriving DecidableEq, Repr

/-- `run_inference` (api_client.py lines 69-91): 404 becomes the typed
`ValueError`, any other `HTTPError` is re-raised bare, and every other
exception is wrapped in a generic failure message. -/
def run_inference {α : Type} (submission_id : String) (o : HttpOutcome α) :
    Except ApiFailure α :=
  match o with
  | .success body => .ok body
  | .httpStatusError code msg =>
    if code = 404 then
      .error (.valueError ("Submission " ++ submission_id ++ " not found"))
    else
      .error (.httpError code msg)
  | .transportError msg => .error (.wrappedError ("Inference failed: " ++ msg))

/-- `get_submission_detail` (api_client.py lines 145-167): same shape as
`run_inference` with its own messages. -/
def get_submission_detail {α : Type} (submission_id : String)
    (o : HttpOutcome α) : Except ApiFailure α :=
  match o with
  | .success body => .ok body
  | .httpStatusError code msg =>
    if code = 404 then
      .error (.valueError
        ("Submission " ++ submission_id ++ " not found in tracking database"))
    else
      .error (.httpError code msg)
  | .transportError msg =>
    .error (.wrappedError ("Failed to fetch submission details: " ++ msg))

/-- Body of the recent-submissions endpoint: `data.get("submissions", [])`
reads an optional list. -/
structure RecentBody (α : Type) where
  submissions : Option (List α)
  deriving DecidableEq, Repr

/-- `get_recent_submissions_from_knoxxi` (api_client.py lines 40-67): the
catch-all handler turns every exception into an empty list; on success the
optional `submissions` field is returned as-is, defaulting to empty. -/
def get_recent_submissions_from_knoxxi {α : Type} (limit : ℕ)
    (o : HttpOutcome (RecentBody α)) : List α :=
  match o with
  | .success body => body.submissions.getD []
  | .httpStatusError _ _ => []
  | .transportError _ => []

/-- Return value of `health_check`: either the JSON body passed through,
or the literal dictionary with a `status` key and an `error` key. -/
inductive HealthCheckResult (α : Type) where
  | body (b : α)
  | errorDict (status : String) (error : String)
  deriving DecidableEq, Repr

/-- `health_check` (api_client.py lines 23-38): the catch-all handler maps
every exception to the error dictionary carrying the stringified
exception. -/
def health_check {α : Type} (o : HttpOutcome α) : HealthCheckResult α :=
  match o with
  | .success b => .body b
  | .httpStatusError _ msg => .errorDict "error" msg
  | .transportError msg => .errorDict "error" msg

/-- Does a client call signal not-found, i.e. raise the typed
`ValueError`? -/
def isNotFoundSignal {α : Type} : Except ApiFailure α → Bool
  | .error (.valueError _) => true
  | _ => false

/-- Does a client call signal a transient (non-404) failure, i.e. raise
anything other than the typed `ValueError`? -/
def isTransientSignal {α : Type} : Except ApiFailure α → Bool
  | .error (.httpError _ _) => true
  | .error (.wrappedError _) => true
  | _ => false

/-- Is the transport outcome a failure at all? -/
def isFailureOutcome {α : Type} : HttpOutcome α → Bool
  | .success _ => false
  | _ => true

/-- Is the transport outcome an HTTP 404 response? -/
def is404 {α : Type} : HttpOutcome α → Bool
  | .httpStatusError code _ => code == 404
  | _ => false

/- ------------------------------------------------------------------
Concrete parameter results used to evaluate the embeddings
------------------------------------------------------------------ -/

/-- A fully-populated successful parameter result. -/
def pFull : Param :=
  { name := some "P1", status := some "success",
    model_status := some "production", model_type := some "cnn",
    prediction := some "positive", probability := some (mkRat 812 1000),
    confidence := some "high", ground_truth_raw := some (some "positive"),
    ground_truth_binary := some (some "1"),
    agreement := some (some true), threshold := some (mkRat 1 2),
    agreement_pct := some 50, parameter_name := some "P1" }

/-- The app.py row produced from `pFull`. -/
def rowFull : AppRow :=
  { Parameter := "P1", Status := "production", ModelType := "CNN",
    Prediction := "positive", Probability := "0.812", Confidence := "high",
    GroundTruth := "positive", GTBinary := "1", Agreement := "✅",
    Error := "-" }

/-- An errored parameter result that still carries an agreement value. -/
def pErr : Param :=
  { name := some "P2", status := some "error",
    error := some "model load failed", agreement := some (some true) }

/-- The app.py row produced from `pErr`. -/
def rowErr : AppRow :=
  { Parameter := "P2", Status := "Error", ModelType := "-",
    Prediction := "-", Probability := "-", Confidence := "-",
    GroundTruth := "-", GTBinary := "-", Agreement := "🔴",
    Error := "model load failed" }

/-- A successful parameter result with no ground truth (agreement null). -/
def pNullA : Param :=
  { parameter_name := some "P3", status := some "success",
    agreement := some none }

/-- A successful parameter result with a disagreement (agreement false). -/
def pFalseA : Param :=
  { parameter_name := some "P3", status := some "success",
    agreement := some (some false) }

/-- An errored parameter result whose stored agreement is true. -/
def pErrTrue : Param :=
  { parameter_name := some "P4", status := some "error",
    agreement := some (some true), error := some "model load failed" }

/-- An errored parameter result whose stored agreement is false. -/
def pErrFalse : Param :=
  { parameter_name := some "P4", status := some "error",
    agreement := some (some false), error := some "model load failed" }

/-- A successful parameter result with probability 0.25 (exactly
representable in binary, so the rational idealization is lossless). -/
def pQuarter : Param :=
  { parameter_name := some "P5", status := some "success",
    agreement := some (some true), probability := some (mkRat 1 4),
    threshold := some (mkRat 1 2), agreement_pct := some 50 }

/-- First parameter of the worked example in the specification. -/
def exP1 : Param :=
  { parameter_name := some "P1", status := some "success",
    agreement := some (some true), probability := some (mkRat 812 1000) }

/-- Second parameter of the worked example in the specification. -/
def exP2 : Param :=
  { parameter_name := some "P2", status := some "error",
    error := some "model load failed" }

/- ------------------------------------------------------------------
Helper lemmas
------------------------------------------------------------------ -/

/-- Shape of a successful (non-error-status) `prepRow` conversion: all the
bracket-accessed keys must be present, and the row is determined by them. -/
theorem prepRow_ok_success (p : Param) (row : AppRow)
    (hrow : prepRow p = Except.ok row) (hstatus : p.status ≠ some "error") :
    ∃ agr name modelType prediction probability confidence gtRaw gtBin,
      p.agreement = some agr ∧ p.name = some name ∧
      p.model_type = some modelType ∧ p.prediction = some prediction ∧
      p.probability = some probability ∧ p.confidence = some confidence ∧
      p.ground_truth_raw = some gtRaw ∧ p.ground_truth_binary = some gtBin ∧
      row = { Parameter := name,
              Status := p.model_status.getD "unknown",
              ModelType := pyUpper modelType,
              Prediction := prediction,
              Probability := formatFixed 3 probability,
              Confidence := confidence,
              GroundTruth := pyOrNA gtRaw,
              GTBinary := pyOrNA gtBin,
              Agreement := if agr = some true then "✅"
                           else if agr = some false then "❌" else "⚠️",
              Error := "-" } := by
  rw [prepRow.eq_def] at hrow
  split at hrow
  · simp at hrow
  · rename_i status heq
    have hne : status ≠ "error" := fun h => hstatus (by rw [heq, h])
    rw [if_neg hne] at hrow
    split at hrow
    · simp at hrow
    · rename_i agr hagr
      split at hrow
      · simp at hrow
      · rename_i name hname
        split at hrow
        · simp at hrow
        · rename_i modelType hmt
          split at hrow
          · simp at hrow
          · rename_i prediction hpred
            split at hrow
            · simp at hrow
            · rename_i probability hprob
              split at hrow
              · simp at hrow
              · rename_i confidence hconf
                split at hrow
                · simp at hrow
                · rename_i gtRaw hgtr
                  split at hrow
                  · simp at hrow
                  · rename_i gtBin hgtb
                    injection hrow with h
                    exact ⟨agr, name, modelType, prediction, probability,
                      confidence, gtRaw, gtBin, hagr, hname, hmt, hpred,
                      hprob, hconf, hgtr, hgtb, h.symm⟩

/-- Shape of an error-status `prepRow` conversion: only the name key is
required, and the row is the fixed error row. -/
theorem prepRow_ok_error (p : Param) (row : AppRow)
    (hrow : prepRow p = Except.ok row) (hstatus : p.status = some "error") :
    ∃ name, p.name = some name ∧
      row = { Parameter := name, Status := "Error", ModelType := "-",
              Prediction := "-", Probability := "-", Confidence := "-",
              GroundTruth := "-", GTBinary := "-", Agreement := "🔴",
              Error := p.error.getD "Unknown error" } := by
  rw [prepRow.eq_def] at hrow
  split at hrow
  · simp at hrow
  · rename_i status heq
    have hse : status = "error" := by
      rw [hstatus] at heq
      exact (Option.some.inj heq).symm
    rw [if_pos hse] at hrow
    split at hrow
    · simp at hrow
    · rename_i name hname
      injection hrow with h
      exact ⟨name, hname, h.symm⟩

/-- The complement filter has the complementary length. -/
theorem length_filter_not {α : Type} (l : List α) (f : α → Bool) :
    (l.filter (fun a => !(f a))).length = l.length - (l.filter f).length := by
  induction l with
  | nil => rfl
  | cons a l ih =>
    have hle : (l.filter f).length ≤ l.length := List.length_filter_le _ _
    by_cases h : f a = true <;> simp [List.filter_cons, h, ih] <;> omega

/- ------------------------------------------------------------------
Claim theorems
------------------------------------------------------------------ -/

/-- C1 (counterexample): in the detail-view display path a parameter with
`status = "success"` and `agreement = null` is rendered with the very same
"❌" badge as one with `agreement = false`, so the null case does not get a
distinct no-ground-truth badge. -/
theorem detail_badge_conflates_null_false :
    pNullA.status = some "success" ∧ pFalseA.status = some "success" ∧
    agreementGet pNullA = none ∧ agreementGet pFalseA = some false ∧
    (detailRow pNullA).Agreement = "❌" ∧
    (detailRow pFalseA).Agreement = "❌" := by decide

/-- C1 (amended): in app.py `prepare_results_dataframe` the badge of a
non-error row is "✅" iff agreement is true, "❌" iff it is false and "⚠️"
iff it is null; but `get_agreement_badge`, used by the detail-view and
inference-page paths, renders null and false with the same "❌" badge. -/
theorem app_badge_trichotomy (p : Param) (row : AppRow)
    (hrow : prepRow p = Except.ok row) (hstatus : p.status ≠ some "error") :
    (row.Agreement = "✅" ↔ p.agreement = some (some true)) ∧
    (row.Agreement = "❌" ↔ p.agreement = some (some false)) ∧
    (row.Agreement = "⚠️" ↔ p.agreement = some none) ∧
    get_agreement_badge none = get_agreement_badge (some false) := by
  obtain ⟨agr, name, modelType, prediction, probability, confidence, gtRaw,
    gtBin, hagr, _, _, _, _, _, _, _, rfl⟩ :=
    prepRow_ok_success p row hrow hstatus
  rw [hagr]
  rcases agr with _ | b
  · simp [get_agreement_badge, pyTruthy]
  · cases b <;> simp [get_agreement_badge, pyTruthy]

/-- C1 (witness): the amended trichotomy evaluated on a fully populated
successful parameter. -/
theorem app_badge_trichotomy_witness :
    (prepRow pFull = Except.ok rowFull ∧ pFull.status ≠ some "error") ∧
    ((rowFull.Agreement = "✅" ↔ pFull.agreement = some (some true)) ∧
     (rowFull.Agreement = "❌" ↔ pFull.agreement = some (some false)) ∧
     (rowFull.Agreement = "⚠️" ↔ pFull.agreement = some none) ∧
     get_agreement_badge none = get_agreement_badge (some false)) :=
  ⟨⟨by decide, by decide⟩,
    app_badge_trichotomy pFull rowFull (by decide) (by decide)⟩

/-- C2 (counterexample): in the detail-view display path an error-status
parameter is not given an error badge at all; its badge is derived from the
agreement field and changes with it. -/
theorem detail_badge_ignores_error_status :
    pErrTrue.status = some "error" ∧ pErrFalse.status = some "error" ∧
    (detailRow pErrTrue).Agreement = "✅" ∧
    (detailRow pErrFalse).Agreement = "❌" := by decide

/-- C2 (amended): in app.py every error-status row gets the "🔴" badge and
dash cells regardless of agreement, and on the inference page every
error-status row gets the "-" placeholder regardless of agreement; the
detail-view path applies no such precedence. -/
theorem error_rows_badge_precedence (p : Param) (row : AppRow)
    (hrow : prepRow p = Except.ok row) (hstatus : p.status = some "error") :
    row.Agreement = "🔴" ∧ row.Probability = "-" ∧
    (infRow p).Agreement = "-" ∧ (infRow p).Probability = "-" := by
  obtain ⟨name, hname, rfl⟩ := prepRow_ok_error p row hrow hstatus
  refine ⟨rfl, rfl, ?_, ?_⟩ <;> simp [infRow, hstatus]

/-- C2 (witness): the error-row precedence evaluated on an errored
parameter whose stored agreement is true. -/
theorem error_rows_badge_precedence_witness :
    (prepRow pErr = Except.ok rowErr ∧ pErr.status = some "error") ∧
    (rowErr.Agreement = "🔴" ∧ rowErr.Probability = "-" ∧
     (infRow pErr).Agreement = "-" ∧ (infRow pErr).Probability = "-") :=
  ⟨⟨by decide, by decide⟩,
    error_rows_badge_precedence pErr rowErr (by decide) (by decide)⟩

/-- C3: for both `run_inference` and `get_submission_detail`, the typed
not-found signal is raised exactly on an HTTP 404 outcome, every other
failing outcome raises a non-not-found failure, and the two signals are
never raised together. -/
theorem notfound_transient_distinction {α : Type} (submission_id : String)
    (o : HttpOutcome α) :
    (isNotFoundSignal (run_inference submission_id o) = true ↔
      is404 o = true) ∧
    (isTransientSignal (run_inference submission_id o) = true ↔
      isFailureOutcome o = true ∧ is404 o = false) ∧
    ¬(isNotFoundSignal (run_inference submission_id o) = true ∧
      isTransientSignal (run_inference submission_id o) = true) ∧
    (isNotFoundSignal (get_submission_detail submission_id o) = true ↔
      is404 o = true) ∧
    (isTransientSignal (get_submission_detail submission_id o) = true ↔
      isFailureOutcome o = true ∧ is404 o = false) ∧
    ¬(isNotFoundSignal (get_submission_detail submission_id o) = true ∧
      isTransientSignal (get_submission_detail submission_id o) = true) := by
  cases o with
  | success body =>
    simp [run_inference, get_submission_detail, isNotFoundSignal,
      isTransientSignal, isFailureOutcome, is404]
  | httpStatusError code msg =>
    by_cases h : code = 404 <;>
      simp [run_inference, get_submission_detail, isNotFoundSignal,
        isTransientSignal, isFailureOutcome, is404, h]
  | transportError msg =>
    simp [run_inference, get_submission_detail, isNotFoundSignal,
      isTransientSignal, isFailureOutcome, is404]

/-- C4 (counterexample): the detail-view table renders a probability of
0.25 as "0.2500" (four decimal places), not the three-decimal "0.250" the
claim requires, and the CSV export of the same row carries the raw
unformatted value rather than the on-screen text. -/
theorem detail_probability_four_decimals :
    detailDisplayProbability (detailRow pQuarter) = "0.2500" ∧
    formatFixed 3 ((detailRow pQuarter).Probability) = "0.250" ∧
    detailDisplayProbability (detailRow pQuarter) ≠
      formatFixed 3 ((detailRow pQuarter).Probability) ∧
    (exportRow (some "abc123") pQuarter).Probability = some (mkRat 1 4) := by
  decide

/-- C4 (amended): on the inference dashboard the displayed table and the
CSV download come from the same prepared rows, whose probability cell is
formatted to three decimals; the detail page instead formats probability
to four decimals (percent to one, threshold to two) on screen while its
CSV export writes the raw unformatted values, so the two can diverge. -/
theorem formatting_per_path (params : List Param) (p : Param) (row : AppRow)
    (hrow : prepRow p = Except.ok row) (hstatus : p.status ≠ some "error") :
    app_csv_rows params = app_display_rows params ∧
    (∃ prob, p.probability = some prob ∧
      row.Probability = formatFixed 3 prob) ∧
    detailDisplayProbability (detailRow p) =
      formatFixed 4 (p.probability.getD 0) ∧
    detailDisplayThreshold (detailRow p) =
      formatFixed 2 (p.threshold.getD 0) ∧
    detailDisplayAgreementPct (detailRow p) =
      formatFixed 1 (p.agreement_pct.getD 0) ++ "%" ∧
    (exportRow none p).Probability = p.probability := by
  obtain ⟨agr, name, modelType, prediction, probability, confidence, gtRaw,
    gtBin, _, _, _, _, hprob, _, _, _, rfl⟩ :=
    prepRow_ok_success p row hrow hstatus
  exact ⟨rfl, ⟨probability, hprob, rfl⟩, rfl, rfl, rfl, rfl⟩

/-- C4 (witness): the per-path formatting facts evaluated on a fully
populated successful parameter. -/
theorem formatting_per_path_witness :
    (prepRow pFull = Except.ok rowFull ∧ pFull.status ≠ some "error") ∧
    (app_csv_rows [pFull] = app_display_rows [pFull] ∧
     (∃ prob, pFull.probability = some prob ∧
       rowFull.Probability = formatFixed 3 prob) ∧
     detailDisplayProbability (detailRow pFull) =
       formatFixed 4 (pFull.probability.getD 0) ∧
     detailDisplayThreshold (detailRow pFull) =
       formatFixed 2 (pFull.threshold.getD 0) ∧
     detailDisplayAgreementPct (detailRow pFull) =
       formatFixed 1 (pFull.agreement_pct.getD 0) ++ "%" ∧
     (exportRow none pFull).Probability = pFull.probability) :=
  ⟨⟨by decide, by decide⟩,
    formatting_per_path [pFull] pFull rowFull (by decide) (by decide)⟩

/-- C5: the submission-level agreement indicator is tier-exact: green iff
the percentage is at least 80, yellow iff it is in [50, 80), red iff it is
below 50. -/
theorem agreement_indicator_tiers (pct : ℚ) :
    (get_agreement_indicator pct = "🟢" ↔ 80 ≤ pct) ∧
    (get_agreement_indicator pct = "🟡" ↔ 50 ≤ pct ∧ pct < 80) ∧
    (get_agreement_indicator pct = "🔴" ↔ pct < 50) := by
  rw [get_agreement_indicator]
  split_ifs with h1 h2
  · refine ⟨⟨fun _ => h1, fun _ => rfl⟩, ⟨fun hs => ?_, fun hp => ?_⟩,
      ⟨fun hs => ?_, fun hp => ?_⟩⟩
    · exact absurd hs (by decide)
    · exact absurd h1 (not_le.mpr hp.2)
    · exact absurd hs (by decide)
    · exact absurd h1 (not_le.mpr (by linarith))
  · refine ⟨⟨fun hs => ?_, fun hp => ?_⟩, ⟨fun _ => ⟨h2, not_le.mp h1⟩,
      fun _ => rfl⟩, ⟨fun hs => ?_, fun hp => ?_⟩⟩
    · exact absurd hs (by decide)
    · exact absurd hp h1
    · exact absurd hs (by decide)
    · exact absurd h2 (not_le.mpr hp)
  · refine ⟨⟨fun hs => ?_, fun hp => ?_⟩, ⟨fun hs => ?_, fun hp => ?_⟩,
      ⟨fun _ => not_le.mp h2, fun _ => rfl⟩⟩
    · exact absurd hs (by decide)
    · exact absurd hp h1
    · exact absurd hs (by decide)
    · exact absurd hp.1 h2

/-- C6: the recent-submissions listing returns a plain list for every
limit and every transport outcome (it cannot raise), the list is empty on
any failure, and a server-provided submissions sequence is returned
unchanged. -/
theorem recent_submissions_never_raise {α : Type} (limit code : ℕ)
    (msg : String) (subs : List α) :
    get_recent_submissions_from_knoxxi limit
      (HttpOutcome.httpStatusError (α := RecentBody α) code msg) = [] ∧
    get_recent_submissions_from_knoxxi limit
      (HttpOutcome.transportError (α := RecentBody α) msg) = [] ∧
    get_recent_submissions_from_knoxxi limit
      (HttpOutcome.success { submissions := some subs }) = subs ∧
    get_recent_submissions_from_knoxxi limit
      (HttpOutcome.success { submissions := (none : Option (List α)) }) = [] := by
  refine ⟨rfl, rfl, rfl, rfl⟩

/-- C7: `health_check` returns a dictionary for every transport outcome
(it cannot raise): the body unchanged on success, and the literal
error dictionary with status "error" and the failure message otherwise. -/
theorem health_check_never_raises {α : Type} (b : α) (code : ℕ)
    (msg : String) :
    health_check (HttpOutcome.success b) = HealthCheckResult.body b ∧
    health_check (HttpOutcome.httpStatusError (α := α) code msg) =
      HealthCheckResult.errorDict "error" msg ∧
    health_check (HttpOutcome.transportError (α := α) msg) =
      HealthCheckResult.errorDict "error" msg := by
  refine ⟨rfl, rfl, rfl⟩

/-- C8 (counterexample): on the worked example of the specification,
app.py `prepare_results_dataframe` does not produce two rows at all: the
parameters carry `parameter_name` keys while the code reads `name`, so the
first row raises `KeyError` and the conversion aborts. -/
theorem example_input_keyerror :
    prepare_results_dataframe [exP1, exP2] =
      Except.error "KeyError: name" := by decide

/-- C8 (amended): under the inference-page row shaping the example input
yields exactly two rows, the first with the "✅" agree badge and
probability text "0.812", the second (error status) with "-" placeholders
in the agreement and probability cells; app.py instead raises KeyError on
this input. -/
theorem example_input_inference_rows :
    show_inference_rows [exP1, exP2] =
      [{ Parameter := "N/A", Model := "N/A", Prediction := "N/A",
         GroundTruth := some "N/A", Agreement := "✅",
         Probability := "0.812" },
       { Parameter := "N/A", Model := "-", Prediction := "-",
         GroundTruth := some "-", Agreement := "-",
         Probability := "-" }] := by decide

/-- C9: each row-shaping loop is a pointwise map over the input
parameters: the output is fully determined by the input list (row i by
parameter i alone), with no dependence on render order or ambient state. -/
theorem normalization_pointwise (params : List Param) :
    prepare_results_dataframe params = params.mapM prepRow ∧
    show_inference_rows params = params.map infRow ∧
    (∀ submission_id,
      export_rows submission_id params = params.map (exportRow submission_id)) := by
  induction params with
  | nil => exact ⟨rfl, rfl, fun _ => rfl⟩
  | cons p ps ih =>
    obtain ⟨ih1, ih2, ih3⟩ := ih
    refine ⟨?_, ?_, fun sid => ?_⟩
    · rw [List.mapM_cons, ← ih1]
      cases h : prepRow p with
      | error e =>
        simp only [prepare_results_dataframe, h]
        rfl
      | ok row =>
        cases h2 : prepare_results_dataframe ps with
        | error e =>
          simp only [prepare_results_dataframe, h, h2]
          rfl
        | ok rows =>
          simp only [prepare_results_dataframe, h, h2]
          rfl
    · simp [show_inference_rows, ih2]
    · simp [export_rows, ih3 sid]

/-- C10: in the detail-view summary counters, "Agreed" counts exactly the
parameters whose agreement is the boolean true, and "Disagreed" is the
complement count, so parameters with null agreement (no ground truth) or
an absent/other value are all counted as disagreements. -/
theorem breakdown_counters (params : List Param) (hne : params ≠ []) :
    agreedCount params =
      (params.filter (fun p => agreementGet p == some true)).length ∧
    disagreedCount params = params.length - agreedCount params ∧
    disagreedCount params =
      (params.filter (fun p => !(agreementGet p == some true))).length := by
  refine ⟨List.countP_eq_length_filter _ _, rfl, ?_⟩
  rw [disagreedCount, agreedCount, List.countP_eq_length_filter,
    length_filter_not]

/-- C10 (witness): the counters evaluated on a two-parameter list with one
exact agreement and one null agreement. -/
theorem breakdown_counters_witness :
    ([pFull, pNullA] ≠ ([] : List Param)) ∧
    (agreedCount [pFull, pNullA] =
      (([pFull, pNullA]).filter
        (fun p => agreementGet p == some true)).length ∧
     disagreedCount [pFull, pNullA] =
      ([pFull, pNullA]).length - agreedCount [pFull, pNullA] ∧
     disagreedCount [pFull, pNullA] =
      (([pFull, pNullA]).filter
        (fun p => !(agreementGet p == some true))).length) :=
  ⟨by decide, breakdown_counters [pFull, pNullA] (by decide)⟩

end Uriscan
